import Mathlib

/-!
# Verification of the cocotb-test simulator orchestration layer

A shallow embedding, in Lean 4, of `cocotb_test/simulator.py`: the utility
functions (`as_tcl_value`, `add_args`), the rebuild decision
(`Simulator.outdated`), the process-execution engine (`Simulator.execute`),
the cancellation handler (`Simulator.exit_gracefully`), the result collection
performed by `Simulator.run`, and the per-backend command builders
(`Icarus`, `Questa`, `Ius`, `Xcelium`, `Vcs`, `Ghdl`, `Riviera`, `Verilator`).

Modelling conventions:
* Python file-modification times are modelled as natural numbers; the file
  system is a map from path strings to an optional mtime (`none` = the path
  is not an existing regular file) together with a directory predicate.
* Python exceptions raised by the orchestration layer are modelled with
  `Except` and the error taxonomy of the specification:
  `ValueError("This simulator does not support VHDL")` is
  `SimError.unsupported_source_kind`, `FileNotFoundError` from
  `os.path.getmtime` is `SimError.missing_dependency`, the `IndexError`
  raised by `as_tcl_value("")` is `SimError.index_error`, and the missing
  Verilator executable is `SimError.missing_executable`.
* `os.path.join` is modelled as joining with `"/"`.
-/

/-- Error taxonomy for exceptions raised while building commands
(`ValueError` on unsupported HDL family, `FileNotFoundError` from
`os.path.getmtime`, `IndexError` from `as_tcl_value("")`, and
`ValueError` when the Verilator executable is absent). -/
inductive SimError
  | unsupported_source_kind
  | missing_dependency
  | index_error
  | missing_executable
deriving DecidableEq, Repr

/-- The file system visible to the orchestrator: `files p` is `some mtime`
when `p` is an existing regular file, and `dirs p` tells whether `p` is an
existing directory. -/
structure FS where
  files : String → Option Nat
  dirs : String → Bool

/- ====================================================================== -/

/- common functions (module top of `simulator.py`)                        -/

/- ====================================================================== -/

/-- `_magic_re.sub(r"\\\1", value)`: put a backslash before every
backslash and brace character. -/
def escape_magic (cs : List Char) : List Char :=
  cs.bind (fun c => if c = '\\' ∨ c = '\x7b' ∨ c = '\x7d' then ['\\', c] else [c])

/-- `value.replace("\n", r"\n")`: replace every newline character by the
two-character sequence backslash–`n`. -/
def replace_newline (cs : List Char) : List Char :=
  cs.bind (fun c => if c = '\n' then ['\\', 'n'] else [c])

/-- The characters matched by `re.compile(r"([\s])", re.ASCII)`. -/
def is_ascii_space (c : Char) : Bool :=
  c = ' ' || c = '\t' || c = '\n' || c = '\x0b' || c = '\x0c' || c = '\r'

/-- `_space_re.sub(r"\\\1", value)`: put a backslash before every ASCII
whitespace character. -/
def escape_space (cs : List Char) : List Char :=
  cs.bind (fun c => if is_ascii_space c then ['\\', c] else [c])

/-- `as_tcl_value`: escape backslashes, braces, newlines and spaces, then
test whether the first character of the result is a double quote.  The
first-character access `value[0]` raises `IndexError` when the intermediate
string is empty, which happens exactly on the empty input; this is modelled
by returning `none`. -/
def as_tcl_value (value : String) : Option String :=
  let v := escape_space (replace_newline (escape_magic value.data))
  match v with
  | [] => none
  | c :: _ => some (String.mk (if c = '"' then '\\' :: v else v))

/-- `as_tcl_value` as used by the backends: the `IndexError` on an empty
argument propagates as an exception. -/
def as_tcl_valueE (value : String) : Except SimError String :=
  match as_tcl_value value with
  | none => Except.error SimError.index_error
  | some v => Except.ok v

/-- One element of the argument list accepted by `add_args`: either a plain
string or a list of strings. -/
inductive Arg
  | str (x : String)
  | list (xs : List String)

/-- `add_args`: concatenate the arguments with single spaces, flattening
string lists, and strip the trailing space. -/
def add_args (list_args : List Arg) : String :=
  (list_args.foldl
    (fun out_cmd arg =>
      match arg with
      | Arg.str x => out_cmd ++ x ++ " "
      | Arg.list xs => xs.foldl (fun acc inner_arg => acc ++ inner_arg ++ " ") out_cmd)
    "").trim

/- ====================================================================== -/

/- Simulator.outdated (rebuild decision)                                  -/

/- ====================================================================== -/

/-- The dependency loop of `Simulator.outdated`: take the running maximum of
the dependency mtimes, raising `FileNotFoundError` (modelled as
`SimError.missing_dependency`) at the first dependency that does not
exist, exactly as `os.path.getmtime` does. -/
def dep_mtime_loop (fs : FS) : List String → Nat → Except SimError Nat
  | [], dep_mtime => Except.ok dep_mtime
  | dependency :: rest, dep_mtime =>
    match fs.files dependency with
    | none => Except.error SimError.missing_dependency
    | some mtime => dep_mtime_loop fs rest (if mtime > dep_mtime then mtime else dep_mtime)

/-- `Simulator.outdated(output, dependencies)`: `True` when the output is
not an existing file; otherwise `True` iff the running maximum of the
dependency mtimes (started at `0`) exceeds the output mtime. -/
def outdated (fs : FS) (output : String) (dependencies : List String) : Except SimError Bool :=
  match fs.files output with
  | none => Except.ok true
  | some output_mtime =>
    match dep_mtime_loop fs dependencies 0 with
    | Except.error e => Except.error e
    | Except.ok dep_mtime => Except.ok (decide (dep_mtime > output_mtime))

/-- Specification-level maximum of the dependency modification times. -/
def max_dep_mtime (fs : FS) (dependencies : List String) : Nat :=
  dependencies.foldl (fun acc d => max acc ((fs.files d).getD 0)) 0

/-- Concrete file system for the witnesses of the rebuild-decision claims. -/
def fs_c2 : FS :=
  { files := fun p => if p = "out" then some 5 else if p = "d1" then some 7 else none
    dirs := fun _ => false }

/- ====================================================================== -/

/- Simulator base-class configuration                                     -/

/- ====================================================================== -/

/-- The request attributes stored by `Simulator.__init__` and read by the
backend command builders.  Source lists, include directories and defines
hold the values after `__init__`'s normalisation (absolute paths already
passed through `as_tcl_value`). -/
structure SimConfig where
  toplevel : String
  toplevel_lang : String
  verilog_sources : List String
  vhdl_sources : List String
  includes : List String
  defines : List String
  compile_args : List String
  simulation_args : List String
  plus_args : List String
  force_compile : Bool
  compile_only : Bool
  gui : Bool
  sim_dir : String
  lib_dir : String
  lib_ext : String
deriving DecidableEq, Repr

/- ====================================================================== -/

/- Icarus backend                                                         -/

/- ====================================================================== -/

namespace Icarus

/-- `Icarus.__init__`: reject a request with VHDL sources
(`ValueError("This simulator does not support VHDL")`). -/
def init (s : SimConfig) : Except SimError SimConfig :=
  if s.vhdl_sources ≠ [] then Except.error SimError.unsupported_source_kind
  else Except.ok s

/-- `self.sim_file = os.path.join(self.sim_dir, self.toplevel + ".vvp")`. -/
def sim_file (s : SimConfig) : String :=
  s.sim_dir ++ "/" ++ s.toplevel ++ ".vvp"

/-- `Icarus.get_include_commands`: each directory as `-I dir`. -/
def get_include_commands (includes : List String) : List String :=
  includes.bind (fun dir => ["-I", dir])

/-- `Icarus.get_define_commands`: each define as `-D define`. -/
def get_define_commands (defines : List String) : List String :=
  defines.bind (fun define => ["-D", define])

/-- `Icarus.compile_command`. -/
def compile_command (s : SimConfig) : List String :=
  ["iverilog", "-o", sim_file s, "-D", "COCOTB_SIM=1", "-s", s.toplevel, "-g2012"]
    ++ get_define_commands s.defines
    ++ get_include_commands s.includes
    ++ s.compile_args
    ++ s.verilog_sources

/-- `Icarus.run_command`. -/
def run_command (s : SimConfig) : List String :=
  ["vvp", "-M", s.lib_dir, "-m", "libcocotbvpi_icarus"]
    ++ s.simulation_args
    ++ [sim_file s]
    ++ s.plus_args

/-- `Icarus.build_command`: compile when the `.vvp` file is outdated with
respect to the Verilog sources or compilation is forced (otherwise log a
skip notice), then append the run command unless compile-only. -/
def build_command (fs : FS) (s : SimConfig) :
    Except SimError (List (List String) × List String) :=
  match outdated fs (sim_file s) s.verilog_sources with
  | Except.error e => Except.error e
  | Except.ok od =>
    let (cmd, logs) :=
      if od || s.force_compile then ([compile_command s], ([] : List String))
      else ([], ["Skipping compilation:" ++ sim_file s])
    let cmd := if !s.compile_only then cmd ++ [run_command s] else cmd
    Except.ok (cmd, logs)

/-- `run(**kwargs)` on the Icarus backend, up to command generation:
construction followed by `build_command`. -/
def session (fs : FS) (s : SimConfig) :
    Except SimError (List (List String) × List String) :=
  match init s with
  | Except.error e => Except.error e
  | Except.ok s0 => build_command fs s0

end Icarus

/-- Configuration with an up-to-date artifact for the C3 counterexample:
compile-only is requested, the `.vvp` file is newer than the only Verilog
source, and compilation is not forced. -/
def cfg_c3 : SimConfig :=
  { toplevel := "top", toplevel_lang := "verilog"
    verilog_sources := ["v.sv"], vhdl_sources := []
    includes := [], defines := [], compile_args := []
    simulation_args := [], plus_args := []
    force_compile := false, compile_only := true, gui := false
    sim_dir := "sb", lib_dir := "lib", lib_ext := "so" }

/-- File system for the C3 counterexample: the compiled `sb/top.vvp` (mtime
10) is newer than the source `v.sv` (mtime 5). -/
def fs_c3 : FS :=
  { files := fun p => if p = "sb/top.vvp" then some 10 else if p = "v.sv" then some 5 else none
    dirs := fun _ => false }

/-- File system for the C3 witness: no compiled artifact exists yet. -/
def fs_c3w : FS :=
  { files := fun p => if p = "v.sv" then some 5 else none
    dirs := fun _ => false }

/-- Configuration for the C3 witness: two Verilog sources, no forced
compilation, a full (non-compile-only) run. -/
def cfg_c3w : SimConfig :=
  { cfg_c3 with verilog_sources := ["a.sv", "b.sv"], compile_only := false }

/- ====================================================================== -/

/- Simulator.execute (process execution engine)                           -/

/- ====================================================================== -/

/-- The behaviour of the external world when a command is spawned: the
lines produced on the combined output stream and the process exit code. -/
structure CmdWorld where
  out_lines : List String → List String
  exit_code : List String → Int

/-- Log stream entries produced by `Simulator.execute`. -/
inductive LogEntry
  | info (msg : String)
  | error (msg : String)
deriving DecidableEq, Repr

/-- Python `str.rstrip()`: drop trailing whitespace. -/
def rstrip (s : String) : String :=
  String.mk ((s.data.reverse.dropWhile Char.isWhitespace).reverse)

/-- The body of `Simulator.execute` for one command: log the command line,
forward each non-empty (after `rstrip`) output line at info level, and log
an error when the exit code is non-zero ("truthy"). -/
def execute_one (w : CmdWorld) (cmd : List String) : List LogEntry :=
  [LogEntry.info ("Running command: " ++ " ".intercalate cmd)]
    ++ (w.out_lines cmd).filterMap
        (fun line =>
          let log_out := rstrip line
          if log_out = "" then none else some (LogEntry.info log_out))
    ++ (if w.exit_code cmd ≠ 0 then
          [LogEntry.error ("Command terminated with error " ++ toString (w.exit_code cmd))]
        else [])

/-- `Simulator.execute`: run the commands in the given order, returning
(first component) the commands spawned in spawn order and (second
component) the accumulated log.  The function is total: no exit code makes
it raise or stop early. -/
def execute (w : CmdWorld) : List (List String) → List (List String) × List LogEntry
  | [] => ([], [])
  | cmd :: rest =>
    let logs := execute_one w cmd
    let (spawned, rest_logs) := execute w rest
    (cmd :: spawned, logs ++ rest_logs)

/-- World for the C4 witness: the command `["false"]` exits with code 1
and the command `["true"]` with code 0; no output is produced. -/
def w_c4 : CmdWorld :=
  { out_lines := fun _ => []
    exit_code := fun cmd => if cmd = ["false"] then 1 else 0 }

/- ====================================================================== -/

/- Simulator.exit_gracefully (cancellation controller)                    -/

/- ====================================================================== -/

/-- `signal.SIGINT` on POSIX. -/
def SIGINT : Nat := 2

/-- `signal.SIGTERM` on POSIX. -/
def SIGTERM : Nat := 15

/-- The state of the `self.process` attribute.  `__init__` installs the
signal handlers without ever assigning `self.process`, so before the first
`subprocess.Popen` call in `execute` the attribute does not exist at all
(`unset`); afterwards it holds a process object.  The code's
`if self.process is not None` test also allows for an attribute that holds
`None`, which is modelled by `assigned none`. -/
inductive ProcessAttr
  | unset
  | assigned (p : Option Nat)
deriving DecidableEq, Repr

/-- The mutable orchestrator state read by the cancellation handler: the
`self.process` attribute and the previously installed handlers saved by
`__init__` (handlers are identified by opaque numbers). -/
structure OrchState where
  process : ProcessAttr
  old_sigint_h : Nat
  old_sigterm_h : Nat
deriving DecidableEq, Repr

/-- Python exceptions escaping from the cancellation handler. -/
inductive PyError
  | attribute_error
deriving DecidableEq, Repr

/-- Observable effects of the cancellation handler. -/
inductive Effect
  | flush_child (pid : Nat)
  | kill_child (pid : Nat)
  | wait_child (pid : Nat)
  | set_signal (sig : Nat) (handler : Nat)
  | assertion_failure (message : String)
deriving DecidableEq, Repr

/-- String form of the `pid` local in the assertion message
(`None` when no process was present). -/
def pid_repr : Option Nat → String
  | none => "None"
  | some p => toString p

/-- `Simulator.exit_gracefully(signum, frame)`: reading `self.process`
raises `AttributeError` when the attribute was never assigned; otherwise,
if it is not `None`, flush, kill and wait for the child, then in all cases
restore the saved handlers and fail with the assertion carrying the pid
and the signal number. -/
def exit_gracefully (st : OrchState) (signum : Nat) : Except PyError (List Effect) :=
  match st.process with
  | ProcessAttr.unset => Except.error PyError.attribute_error
  | ProcessAttr.assigned p =>
    Except.ok
      ((match p with
        | some pid => [Effect.flush_child pid, Effect.kill_child pid, Effect.wait_child pid]
        | none => [])
        ++ [Effect.set_signal SIGINT st.old_sigint_h,
            Effect.set_signal SIGTERM st.old_sigterm_h,
            Effect.assertion_failure
              ("Exiting pid: " ++ pid_repr p ++ " with signum: " ++ toString signum)])

/- ====================================================================== -/

/- Verilator backend                                                      -/

/- ====================================================================== -/

namespace Verilator

/-- `Verilator.__init__`: reject a request with VHDL sources
(`ValueError("This simulator does not support VHDL")`). -/
def init (s : SimConfig) : Except SimError SimConfig :=
  if s.vhdl_sources ≠ [] then Except.error SimError.unsupported_source_kind
  else Except.ok s

/-- `Verilator.get_include_commands`: each directory as `-Idir`. -/
def get_include_commands (includes : List String) : List String :=
  includes.map (fun dir => "-I" ++ dir)

/-- `Verilator.get_define_commands`: each define as `-Ddefine`. -/
def get_define_commands (defines : List String) : List String :=
  defines.map (fun define => "-D" ++ define)

/-- `Verilator.build_command`.  `verilator_exec` models
`find_executable("verilator")` (absence raises `ValueError`), `cocotb_dir`
models `os.path.dirname(cocotb.__file__)` (the first, immediately
overwritten assignment to `verilator_cpp` is dead code and is not
modelled).  The second component of the result records the `CPPFLAGS`
environment side effect. -/
def build_command (verilator_exec : Option String) (cocotb_dir : String) (s : SimConfig) :
    Except SimError (List (List String) × List (String × String)) :=
  match verilator_exec with
  | none => Except.error SimError.missing_executable
  | some exe =>
    let out_file := s.sim_dir ++ "/" ++ s.toplevel
    let verilator_cpp := cocotb_dir ++ "/share/lib/verilator/verilator.cpp"
    let cmd1 :=
      ["perl", exe, "-cc", "--exe", "-Mdir", s.sim_dir, "-DCOCOTB_SIM=1",
       "--top-module", s.toplevel, "--vpi", "--public-flat-rw", "--prefix", "Vtop",
       "-o", s.toplevel, "-LDFLAGS",
       "-Wl,-rpath," ++ s.lib_dir ++ " -L" ++ s.lib_dir ++ " -lcocotbvpi_verilator"]
        ++ s.compile_args
        ++ get_define_commands s.defines
        ++ get_include_commands s.includes
        ++ [verilator_cpp]
        ++ s.verilog_sources
    let cmds := [cmd1, ["make", "-C", s.sim_dir, "-f", "Vtop.mk"]]
    let cmds := if !s.compile_only then cmds ++ [[out_file]] else cmds
    Except.ok (cmds, [("CPPFLAGS", "-std=c++11")])

/-- Construction followed by command generation on the Verilator backend. -/
def session (verilator_exec : Option String) (cocotb_dir : String) (s : SimConfig) :
    Except SimError (List (List String) × List (String × String)) :=
  match init s with
  | Except.error e => Except.error e
  | Except.ok s0 => build_command verilator_exec cocotb_dir s0

end Verilator

/-- The command sequence delivered by a session, with a failed construction
delivering no commands at all. -/
def commands_of {α : Type} : Except SimError (List (List String) × α) → List (List String)
  | Except.error _ => []
  | Except.ok (cmds, _) => cmds

/-- Configuration with only VHDL sources for the C5 witness. -/
def cfg_c5 : SimConfig :=
  { cfg_c3 with verilog_sources := [], vhdl_sources := ["design.vhd"] }

/- ====================================================================== -/

/- Ghdl backend                                                           -/

/- ====================================================================== -/

namespace Ghdl

/-- `Ghdl.get_include_commands`: each directory as `-I dir`. -/
def get_include_commands (includes : List String) : List String :=
  includes.bind (fun dir => ["-I", dir])

/-- `Ghdl.get_define_commands` builds the `-D define` flag list in a local
variable, but the function body ends without a `return` statement, so the
Python function returns `None` whatever its input — modelled as `none`,
with the dead flag list kept as the unused local. -/
def get_define_commands (defines : List String) : Option (List String) :=
  let _defines_cmd := defines.bind (fun define => ["-D", define])
  none

/-- `Ghdl.build_command`: one import command per VHDL source, one
elaboration command, and the run command unless compile-only.  No
staleness check is consulted and no skip notice can be logged. -/
def build_command (s : SimConfig) : List (List String) :=
  (s.vhdl_sources.map (fun source_file => ["ghdl"] ++ s.compile_args ++ ["-i", source_file]))
    ++ [["ghdl"] ++ s.compile_args ++ ["-m", s.toplevel]]
    ++ (if !s.compile_only then
          [["ghdl", "-r", s.toplevel,
            "--vpi=" ++ s.lib_dir ++ "/libcocotbvpi_ghdl." ++ s.lib_ext]
            ++ s.simulation_args]
        else [])

end Ghdl

/- ====================================================================== -/

/- Vcs backend                                                            -/

/- ====================================================================== -/

/-- An entry of the command list built by `Vcs.build_command`: the code
appends argument vectors, but in GUI mode it appends the bare string
`"-gui"` to the command list itself. -/
inductive CmdEntry
  | vec (cmd : List String)
  | raw (s : String)
deriving DecidableEq, Repr

namespace Vcs

/-- `Vcs.get_include_commands`: each directory as `+incdir+dir`. -/
def get_include_commands (includes : List String) : List String :=
  includes.map (fun dir => "+incdir+" ++ dir)

/-- `Vcs.get_define_commands`: each define as `+define+define`. -/
def get_define_commands (defines : List String) : List String :=
  defines.map (fun define => "+define+" ++ define)

/-- The compiled simulation binary `simv` produced in the build directory. -/
def simv_file (s : SimConfig) : String :=
  s.sim_dir ++ "/simv"

/-- The compilation command assembled by `Vcs.build_command`. -/
def compile_command (s : SimConfig) : List String :=
  ["vcs", "-full64", "-debug", "+vpi", "-P", "pli.tab", "-sverilog",
   "+define+COCOTB_SIM=1", "-load", s.lib_dir ++ "/libcocotbvpi_vcs." ++ s.lib_ext]
    ++ get_define_commands s.defines
    ++ get_include_commands s.includes
    ++ s.compile_args
    ++ s.verilog_sources

/-- `Vcs.build_command`: write `pli.tab`, always append the build command
(no staleness check, no skip notice), append the `simv` run command unless
compile-only, and in GUI mode append the bare `"-gui"` string.  The second
component records the file written. -/
def build_command (s : SimConfig) : List CmdEntry × List (String × String) :=
  let do_file_path := s.sim_dir ++ "/pli.tab"
  let writes := [(do_file_path, "acc+=rw,wn:*")]
  let cmd := [CmdEntry.vec (compile_command s)]
  let cmd :=
    if !s.compile_only then
      cmd ++ [CmdEntry.vec ([simv_file s, "+define+COCOTB_SIM=1"] ++ s.simulation_args)]
    else cmd
  let cmd := if s.gui then cmd ++ [CmdEntry.raw "-gui"] else cmd
  (cmd, writes)

end Vcs

/- ====================================================================== -/

/- Ius and Xcelium backends                                               -/

/- ====================================================================== -/

namespace Ius

/-- The artifact whose staleness gates recompilation,
`os.path.join(self.sim_dir, "INCA_libs", "history")`. -/
def out_file (s : SimConfig) : String :=
  s.sim_dir ++ "/INCA_libs/history"

/-- `Ius.get_include_commands`: each directory as `-incdir dir`. -/
def get_include_commands (includes : List String) : List String :=
  includes.bind (fun dir => ["-incdir", dir])

/-- `Ius.get_define_commands`: each define as `-define define`. -/
def get_define_commands (defines : List String) : List String :=
  defines.bind (fun define => ["-define", define])

/-- The elaboration command assembled by `Ius.build_command`. -/
def compile_command (s : SimConfig) : List String :=
  ["irun", "-64", "-elaborate", "-v93", "-define", "COCOTB_SIM=1", "-loadvpi",
   s.lib_dir ++ "/libcocotbvpi_ius." ++ s.lib_ext ++ ":vlog_startup_routines_bootstrap",
   "-plinowarn", "-access", "+rwc", "-top", s.toplevel]
    ++ get_define_commands s.defines
    ++ get_include_commands s.includes
    ++ s.compile_args
    ++ s.verilog_sources
    ++ s.vhdl_sources

/-- The run command assembled by `Ius.build_command` (the GUI slot is the
empty string when GUI mode is off, as in the source). -/
def run_command (s : SimConfig) : List String :=
  ["irun", "-64", "-R", (if s.gui then "-gui" else "")]
    ++ s.simulation_args
    ++ s.plus_args

/-- `Ius.build_command`. -/
def build_command (fs : FS) (s : SimConfig) :
    Except SimError (List (List String) × List String) :=
  match outdated fs (out_file s) (s.verilog_sources ++ s.vhdl_sources) with
  | Except.error e => Except.error e
  | Except.ok od =>
    let (cmd, logs) :=
      if od || s.force_compile then ([compile_command s], ([] : List String))
      else ([], ["Skipping compilation:" ++ out_file s])
    let cmd := if !s.compile_only then cmd ++ [run_command s] else cmd
    Except.ok (cmd, logs)

end Ius

namespace Xcelium

/-- The artifact whose staleness gates recompilation, as for Ius. -/
def out_file (s : SimConfig) : String :=
  s.sim_dir ++ "/INCA_libs/history"

/-- `Xcelium.get_include_commands`: each directory as `-incdir dir`. -/
def get_include_commands (includes : List String) : List String :=
  includes.bind (fun dir => ["-incdir", dir])

/-- `Xcelium.get_define_commands`: each define as `-define define`. -/
def get_define_commands (defines : List String) : List String :=
  defines.bind (fun define => ["-define", define])

/-- The elaboration command assembled by `Xcelium.build_command`. -/
def compile_command (s : SimConfig) : List String :=
  ["xrun", "-64", "-elaborate", "-v93", "-define", "COCOTB_SIM=1", "-loadvpi",
   s.lib_dir ++ "/libcocotbvpi_ius." ++ s.lib_ext ++ ":vlog_startup_routines_bootstrap",
   "-plinowarn", "-access", "+rwc", "-top", s.toplevel]
    ++ get_define_commands s.defines
    ++ get_include_commands s.includes
    ++ s.compile_args
    ++ s.verilog_sources
    ++ s.vhdl_sources

/-- The run command assembled by `Xcelium.build_command`. -/
def run_command (s : SimConfig) : List String :=
  ["xrun", "-64", "-R", (if s.gui then "-gui" else "")]
    ++ s.simulation_args
    ++ s.plus_args

/-- `Xcelium.build_command`. -/
def build_command (fs : FS) (s : SimConfig) :
    Except SimError (List (List String) × List String) :=
  match outdated fs (out_file s) (s.verilog_sources ++ s.vhdl_sources) with
  | Except.error e => Except.error e
  | Except.ok od =>
    let (cmd, logs) :=
      if od || s.force_compile then ([compile_command s], ([] : List String))
      else ([], ["Skipping compilation:" ++ out_file s])
    let cmd := if !s.compile_only then cmd ++ [run_command s] else cmd
    Except.ok (cmd, logs)

end Xcelium

/- ====================================================================== -/

/- Questa backend                                                         -/

/- ====================================================================== -/

/-- Everything `Questa.build_command` produces: the command sequence, the
log messages, the script files written, and the environment variables set
as a side effect. -/
structure BuildOut where
  cmds : List (List String)
  logs : List String
  writes : List (String × String)
  env : List (String × String)
deriving DecidableEq, Repr

namespace Questa

/-- The artifact whose staleness gates recompilation,
`os.path.join(self.sim_dir, self.toplevel, "_info")`. -/
def out_file (s : SimConfig) : String :=
  s.sim_dir ++ "/" ++ s.toplevel ++ "/_info"

/-- `Path(self.sim_dir) / 'compile.do'`. -/
def compile_do_path (s : SimConfig) : String :=
  s.sim_dir ++ "/compile.do"

/-- `Path(self.sim_dir) / 'runsim.do'`. -/
def runsim_do_path (s : SimConfig) : String :=
  s.sim_dir ++ "/runsim.do"

/-- `Questa.get_include_commands`: each directory as
`+incdir+as_tcl_value(dir)`; the `IndexError` of `as_tcl_value` on an
empty string propagates. -/
def get_include_commands (includes : List String) : Except SimError (List String) :=
  includes.mapM (fun incdir =>
    match as_tcl_valueE incdir with
    | Except.error e => Except.error e
    | Except.ok v => Except.ok ("+incdir+" ++ v))

/-- `Questa.get_define_commands`: each define as
`+define+as_tcl_value(define)`. -/
def get_define_commands (defines : List String) : Except SimError (List String) :=
  defines.mapM (fun define =>
    match as_tcl_valueE define with
    | Except.error e => Except.error e
    | Except.ok v => Except.ok ("+define+" ++ v))

/-- The `vcom`/`vlog` lines written into `compile.do`:
a `vcom` line when VHDL sources are present and a `vlog` line when Verilog
sources are present. -/
def compile_do_lines (s : SimConfig) : Except SimError (List String) :=
  let rtl_library := s.toplevel
  let vhdl_lines :=
    if s.vhdl_sources ≠ [] then
      [add_args [Arg.str "vcom -mixedsvvh -work", Arg.str rtl_library, Arg.str "-mfcu",
                 Arg.list s.compile_args, Arg.list s.vhdl_sources]]
    else []
  if s.verilog_sources ≠ [] then
    match get_define_commands s.defines with
    | Except.error e => Except.error e
    | Except.ok dcmds =>
      match get_include_commands s.includes with
      | Except.error e => Except.error e
      | Except.ok icmds =>
        Except.ok (vhdl_lines ++
          [add_args [Arg.str "vlog -mixedsvvh -work", Arg.str rtl_library,
                     Arg.str "+define+COCOTB_SIM -sv -mfcu",
                     Arg.list dcmds, Arg.list icmds,
                     Arg.list s.compile_args, Arg.list s.verilog_sources]])
  else Except.ok vhdl_lines

/-- The compilation phase of `Questa.build_command`: when the library is
outdated or compilation forced, emit the `vdel` (if the library directory
exists), `vlib` and `source compile.do` commands, each prefixed with
`vsim -c -do`, and write `compile.do`; otherwise only log the skip
notice. -/
def compile_phase (fs : FS) (s : SimConfig) (od : Bool) :
    Except SimError (List (List String) × List String × List (String × String)) :=
  if od || s.force_compile then
    match compile_do_lines s with
    | Except.error e => Except.error e
    | Except.ok compile_cmds =>
      let rtl_library := s.toplevel
      let cmds :=
        (if fs.dirs (s.sim_dir ++ "/" ++ rtl_library)
         then [["vdel -lib " ++ rtl_library ++ " -all; quit;"]] else [])
          ++ [["vlib " ++ rtl_library ++ "; quit;"]]
          ++ [["source " ++ compile_do_path s ++ "; quit;"]]
      let writes := [(compile_do_path s, String.join (compile_cmds.map (fun c => c ++ "\n")))]
      Except.ok (cmds.map (fun c => ["vsim", "-c", "-do"] ++ c), ([] : List String), writes)
  else
    Except.ok ([], ["Skipping compilation:" ++ out_file s], [])

/-- The body of `runsim.do` given the already-escaped interface option. -/
def mk_do_script (s : SimConfig) (ext_name : String) : String :=
  let do_script :=
    add_args [Arg.str ("vsim -onfinish " ++ (if s.gui then "stop" else "exit")),
              Arg.str ext_name, Arg.list s.simulation_args,
              Arg.str (s.toplevel ++ "." ++ s.toplevel), Arg.list s.plus_args]
  if !s.gui then do_script ++ "run -all; quit" else do_script

/-- The simulation phase of `Questa.build_command`: pick the FLI or VPI
bridging library from the top-level language, set `GPI_EXTRA` when the
other language family is also present, and produce the `runsim.do`
contents. -/
def sim_phase (s : SimConfig) : Except SimError (String × List (String × String)) :=
  if s.toplevel_lang = "vhdl" then
    match as_tcl_valueE (s.lib_dir ++ "/libcocotbfli_modelsim." ++ s.lib_ext) with
    | Except.error e => Except.error e
    | Except.ok v =>
      Except.ok (mk_do_script s ("-foreign cocotb_init " ++ v),
        if s.verilog_sources ≠ [] then
          [("GPI_EXTRA", "cocotbvpi_modelsim:cocotbvpi_entry_point")]
        else [])
  else
    match as_tcl_valueE (s.lib_dir ++ "/libcocotbvpi_modelsim." ++ s.lib_ext) with
    | Except.error e => Except.error e
    | Except.ok v =>
      Except.ok (mk_do_script s ("-pli " ++ v),
        if s.vhdl_sources ≠ [] then
          [("GPI_EXTRA", "cocotbfli_modelsim:cocotbfli_entry_point")]
        else [])

/-- The interactive or batch `vsim` run command referencing `runsim.do`. -/
def run_command (s : SimConfig) : List String :=
  ["vsim"] ++ (if s.gui then ["-gui"] else ["-c"]) ++ ["-do"]
    ++ ["source " ++ runsim_do_path s]

/-- `Questa.build_command`. -/
def build_command (fs : FS) (s : SimConfig) : Except SimError BuildOut :=
  match outdated fs (out_file s) (s.verilog_sources ++ s.vhdl_sources) with
  | Except.error e => Except.error e
  | Except.ok od =>
    match compile_phase fs s od with
    | Except.error e => Except.error e
    | Except.ok (cmds1, logs1, writes1) =>
      if s.compile_only then
        Except.ok { cmds := cmds1, logs := logs1, writes := writes1, env := [] }
      else
        match sim_phase s with
        | Except.error e => Except.error e
        | Except.ok (do_script, env1) =>
          Except.ok { cmds := cmds1 ++ [run_command s], logs := logs1,
                      writes := writes1 ++ [(runsim_do_path s, do_script)], env := env1 }

end Questa

/- ====================================================================== -/

/- Riviera backend                                                        -/

/- ====================================================================== -/

/-- One vendor-script line of the Riviera `do` script, with the values the
source interpolates (after `as_tcl_value` escaping) as fields. -/
inductive RScript
  | onerror_header
  | alib (library : String)
  | acom (library : String) (extra_args : List String) (vhdl_srcs : List String)
  | alog (library : String) (define_flags : List String) (incdir_flags : List String)
      (extra_args : List String) (verilog_srcs : List String)
  | asim_vhpi (library : String) (top : String) (ext_name : String) (extra_args : List String)
  | asim_vpi (library : String) (top : String) (ext_name : String) (extra_args : List String)
      (p_args : List String)
  | run_all_exit
deriving DecidableEq, Repr

/-- The script lines belonging to the compilation phase. -/
def RScript.is_compile_line : RScript → Bool
  | RScript.alib _ => true
  | RScript.acom _ _ _ => true
  | RScript.alog _ _ _ _ _ => true
  | _ => false

/-- Everything `Riviera.build_command` produces: the `do`-script lines, the
single `vsimsa` command sequence, the log messages and the environment
variables set as a side effect. -/
structure RivieraOut where
  script : List RScript
  cmds : List (List String)
  logs : List String
  env : List (String × String)
deriving DecidableEq, Repr

namespace Riviera

/-- The artifact whose staleness gates recompilation,
`os.path.join(self.sim_dir, self.rtl_library, self.rtl_library + ".lib")`. -/
def out_file (s : SimConfig) : String :=
  s.sim_dir ++ "/" ++ s.toplevel ++ "/" ++ s.toplevel ++ ".lib"

/-- `Riviera.get_include_commands`: each directory as
`+incdir+as_tcl_value(dir)`. -/
def get_include_commands (includes : List String) : Except SimError (List String) :=
  includes.mapM (fun dir =>
    match as_tcl_valueE dir with
    | Except.error e => Except.error e
    | Except.ok v => Except.ok ("+incdir+" ++ v))

/-- `Riviera.get_define_commands`: each define as
`+define+as_tcl_value(define)`. -/
def get_define_commands (defines : List String) : Except SimError (List String) :=
  defines.mapM (fun define =>
    match as_tcl_valueE define with
    | Except.error e => Except.error e
    | Except.ok v => Except.ok ("+define+" ++ v))

/-- The compilation lines of the `do` script: when the library artifact is
outdated or compilation forced, the `alib` line, an `acom` line when VHDL
sources are present and an `alog` line when Verilog sources are present;
otherwise no lines and the skip notice. -/
def compile_script (fs : FS) (s : SimConfig) : Except SimError (List RScript × List String) :=
  let rtl_library := s.toplevel
  match outdated fs (out_file s) (s.verilog_sources ++ s.vhdl_sources) with
  | Except.error e => Except.error e
  | Except.ok od =>
    if od || s.force_compile then
      match as_tcl_valueE rtl_library with
      | Except.error e => Except.error e
      | Except.ok lib =>
        match
          (if s.vhdl_sources ≠ [] then
            match s.vhdl_sources.mapM as_tcl_valueE with
            | Except.error e => Except.error e
            | Except.ok srcs =>
              match s.compile_args.mapM as_tcl_valueE with
              | Except.error e => Except.error e
              | Except.ok xargs => Except.ok [RScript.acom lib xargs srcs]
          else Except.ok ([] : List RScript)) with
        | Except.error e => Except.error e
        | Except.ok vhdl_lines =>
          match
            (if s.verilog_sources ≠ [] then
              match s.verilog_sources.mapM as_tcl_valueE with
              | Except.error e => Except.error e
              | Except.ok srcs =>
                match get_define_commands s.defines with
                | Except.error e => Except.error e
                | Except.ok dflags =>
                  match get_include_commands s.includes with
                  | Except.error e => Except.error e
                  | Except.ok iflags =>
                    match s.compile_args.mapM as_tcl_valueE with
                    | Except.error e => Except.error e
                    | Except.ok xargs =>
                      Except.ok [RScript.alog lib dflags iflags xargs srcs]
            else Except.ok ([] : List RScript)) with
          | Except.error e => Except.error e
          | Except.ok verilog_lines =>
            Except.ok ([RScript.alib lib] ++ vhdl_lines ++ verilog_lines, [])
    else
      Except.ok ([], ["Skipping compilation:" ++ out_file s])

/-- The simulation lines of the `do` script: an `asim` invocation loading
the VHPI or VPI Aldec bridge according to the top-level language, plus the
`GPI_EXTRA` selector when the other language family is also present. -/
def sim_script (s : SimConfig) : Except SimError (List RScript × List (String × String)) :=
  let rtl_library := s.toplevel
  if s.toplevel_lang = "vhdl" then
    match as_tcl_valueE rtl_library with
    | Except.error e => Except.error e
    | Except.ok lib =>
      match as_tcl_valueE s.toplevel with
      | Except.error e => Except.error e
      | Except.ok top =>
        match as_tcl_valueE (s.lib_dir ++ "/libcocotbvhpi_aldec") with
        | Except.error e => Except.error e
        | Except.ok ext =>
          match s.simulation_args.mapM as_tcl_valueE with
          | Except.error e => Except.error e
          | Except.ok xargs =>
            Except.ok ([RScript.asim_vhpi lib top ext xargs],
              if s.verilog_sources ≠ [] then
                [("GPI_EXTRA", "cocotbvpi_aldec:cocotbvpi_entry_point")]
              else [])
  else
    match as_tcl_valueE rtl_library with
    | Except.error e => Except.error e
    | Except.ok lib =>
      match as_tcl_valueE s.toplevel with
      | Except.error e => Except.error e
      | Except.ok top =>
        match as_tcl_valueE (s.lib_dir ++ "/libcocotbvpi_aldec") with
        | Except.error e => Except.error e
        | Except.ok ext =>
          match s.simulation_args.mapM as_tcl_valueE with
          | Except.error e => Except.error e
          | Except.ok xargs =>
            match s.plus_args.mapM as_tcl_valueE with
            | Except.error e => Except.error e
            | Except.ok pargs =>
              Except.ok ([RScript.asim_vpi lib top ext xargs pargs],
                if s.vhdl_sources ≠ [] then
                  [("GPI_EXTRA", "cocotbvhpi_aldec:cocotbvhpi_entry_point")]
                else [])

/-- `Riviera.build_command`: assemble the `do` script (error header, then
compilation lines unless skipped, then simulation lines and `run -all`
/ `exit` unless compile-only), write it to a temporary file whose name is
`tmp_do_file`, and return the single `vsimsa` invocation. -/
def build_command (tmp_do_file : String) (fs : FS) (s : SimConfig) :
    Except SimError RivieraOut :=
  match compile_script fs s with
  | Except.error e => Except.error e
  | Except.ok (cscript, logs) =>
    match
      (if s.compile_only then Except.ok (([] : List RScript), ([] : List (String × String)))
       else
        match sim_script s with
        | Except.error e => Except.error e
        | Except.ok (lines, env) => Except.ok (lines ++ [RScript.run_all_exit], env)) with
    | Except.error e => Except.error e
    | Except.ok (sscript, env) =>
      Except.ok { script := [RScript.onerror_header] ++ cscript ++ sscript,
                  cmds := [["vsimsa", "-do", "do", tmp_do_file]],
                  logs := logs, env := env }

end Riviera

/-- Configuration for the C6 counterexample: one Verilog source older than
the compiled `simv`, no forced recompilation. -/
def cfg_c6x : SimConfig :=
  { toplevel := "top", toplevel_lang := "verilog"
    verilog_sources := ["v.sv"], vhdl_sources := []
    includes := [], defines := [], compile_args := []
    simulation_args := [], plus_args := []
    force_compile := false, compile_only := false, gui := false
    sim_dir := "sb", lib_dir := "lib", lib_ext := "so" }

/-- File system for the C6 counterexample: `sb/simv` (mtime 10) is newer
than the source `v.sv` (mtime 5). -/
def fs_c6x : FS :=
  { files := fun p => if p = "sb/simv" then some 10 else if p = "v.sv" then some 5 else none
    dirs := fun _ => false }

/-- Configuration for the C6 witness: no sources, a full run without GUI. -/
def cfg_c6w : SimConfig :=
  { toplevel := "top", toplevel_lang := "verilog"
    verilog_sources := [], vhdl_sources := []
    includes := [], defines := [], compile_args := []
    simulation_args := [], plus_args := []
    force_compile := false, compile_only := false, gui := false
    sim_dir := "sb", lib_dir := "lib", lib_ext := "so" }

/-- File system for the C6 witness: every backend's compiled artifact is
present, so nothing is stale. -/
def fs_c6w : FS :=
  { files := fun p =>
      if p = "sb/top.vvp" then some 10
      else if p = "sb/top/_info" then some 10
      else if p = "sb/INCA_libs/history" then some 10
      else if p = "sb/top/top.lib" then some 10
      else none
    dirs := fun _ => false }

/- ====================================================================== -/

/- Result collection (Simulator.run, lines 228-240)                       -/

/- ====================================================================== -/

/-- One `failure` element of a test case in the results XML. -/
structure TestFailureRec where
  message : String
  stdout : String
deriving DecidableEq, Repr

/-- One `testcase` element: its `classname` and `name` attributes and its
`failure` children. -/
structure TestCase where
  classname : String
  name : String
  failures : List TestFailureRec
deriving DecidableEq, Repr

/-- One `testsuite` element with its `testcase` children. -/
structure TestSuite where
  testcases : List TestCase
deriving DecidableEq, Repr

/-- The parsed results file: the `testsuite` elements in document order. -/
structure Report where
  testsuites : List TestSuite
deriving DecidableEq, Repr

/-- Failures of the result-collection phase of `Simulator.run`: the missing
results file (`assert results_file_exist`) and the assertion raised for a
recorded failure, carrying the failure message, the test-case class name,
the test-case name and the captured standard output. -/
inductive RunError
  | report_missing
  | test_failure (message : String) (classname : String) (name : String)
      (stdout : String)
deriving DecidableEq, Repr

/-- The inner two loops of the result scan: the first test case with a
non-empty `failure` list delivers the data of its first failure. -/
def first_failure_in_cases : List TestCase → Option (String × String × String × String)
  | [] => none
  | tc :: rest =>
    match tc.failures with
    | [] => first_failure_in_cases rest
    | f :: _ => some (f.message, tc.classname, tc.name, f.stdout)

/-- The outer loop of the result scan over the test suites in document
order. -/
def first_failure : List TestSuite → Option (String × String × String × String)
  | [] => none
  | ts :: rest =>
    match first_failure_in_cases ts.testcases with
    | none => first_failure rest
    | some d => some d

/-- The result-collection phase of `Simulator.run`: nothing is checked in
compile-only mode; otherwise a missing report fails before any test case
is inspected, a report whose scan finds no failure yields the report path,
and the first failure found by a top-to-bottom scan raises the assertion
carrying its data.  `report` is the parse of the results file, `none` when
the file does not exist. -/
def collect_results (compile_only : Bool) (report : Option Report)
    (results_xml_file : String) : Except RunError String :=
  if compile_only then Except.ok results_xml_file
  else
    match report with
    | none => Except.error RunError.report_missing
    | some r =>
      match first_failure r.testsuites with
      | none => Except.ok results_xml_file
      | some (m, c, n, o) => Except.error (RunError.test_failure m c n o)

/-- Report for the C1 witness: suite 1 is clean; suite 2 has two clean
cases and a third whose first failure is recorded. -/
def report_c1 : Report :=
  { testsuites :=
      [ { testcases := [{ classname := "m1", name := "t1", failures := [] }] },
        { testcases :=
            [ { classname := "m2", name := "t1", failures := [] },
              { classname := "m2", name := "t2", failures := [] },
              { classname := "m2", name := "t3",
                failures := [{ message := "boom", stdout := "log" }] } ] } ] }

/- ====================================================================== -/
/- Lemmas and claim theorems                                              -/
/- ====================================================================== -/

lemma dep_mtime_step (m a : Nat) : (if m > a then m else a) = max a m := by
  rcases Nat.lt_or_ge a m with h | h
  · simp [Nat.max_eq_right (Nat.le_of_lt h), h]
  · have : ¬ m > a := Nat.not_lt.mpr h
    simp [this, Nat.max_eq_left h]

lemma dep_mtime_loop_all_exist (fs : FS) (deps : List String)
    (h : ∀ d ∈ deps, (fs.files d).isSome) (acc : Nat) :
    dep_mtime_loop fs deps acc =
      Except.ok (deps.foldl (fun a d => max a ((fs.files d).getD 0)) acc) := by
  induction deps generalizing acc with
  | nil => rfl
  | cons d rest ih =>
    have hd : (fs.files d).isSome := h d (List.mem_cons_self d rest)
    rcases Option.isSome_iff_exists.mp hd with ⟨m, hm⟩
    have hrest : ∀ x ∈ rest, (fs.files x).isSome := fun x hx => h x (List.mem_cons_of_mem d hx)
    simp only [dep_mtime_loop, hm, List.foldl_cons, Option.getD_some, dep_mtime_step]
    exact ih hrest (max acc m)

lemma dep_mtime_loop_missing (fs : FS) (deps : List String)
    (h : ∃ d ∈ deps, fs.files d = none) (acc : Nat) :
    dep_mtime_loop fs deps acc = Except.error SimError.missing_dependency := by
  induction deps generalizing acc with
  | nil => rcases h with ⟨d, hd, _⟩; exact absurd hd (List.not_mem_nil d)
  | cons d rest ih =>
    rcases h with ⟨x, hx, hxnone⟩
    rcases List.mem_cons.mp hx with rfl | hxrest
    · simp only [dep_mtime_loop, hxnone]
    · cases hfd : fs.files d with
      | none => simp only [dep_mtime_loop, hfd]
      | some m =>
        simp only [dep_mtime_loop, hfd]
        exact ih ⟨x, hxrest, hxnone⟩ _

/-- C2 — `outdated`: a missing output always yields `true` (whatever the
dependency list, even one with missing entries); for an existing output and
dependencies that all exist, the result is `true` exactly when the maximum
dependency mtime strictly exceeds the output mtime; and for an existing
output with no dependencies the result is `false`. -/
theorem c2_outdated_rebuild_decision (fs : FS) (output : String) (deps : List String) :
    (fs.files output = none → outdated fs output deps = Except.ok true) ∧
    ((∀ d ∈ deps, (fs.files d).isSome) → ∀ output_mtime,
      fs.files output = some output_mtime →
      (outdated fs output deps = Except.ok true ↔ output_mtime < max_dep_mtime fs deps)) ∧
    (∀ output_mtime, fs.files output = some output_mtime → deps = [] →
      outdated fs output deps = Except.ok false) := by
  refine ⟨fun h => by simp [outdated, h], ?_, ?_⟩
  · intro hall output_mtime hout
    simp only [outdated, hout, dep_mtime_loop_all_exist fs deps hall 0, max_dep_mtime]
    constructor
    · intro h
      have hb : decide (List.foldl (fun a d => max a ((fs.files d).getD 0)) 0 deps > output_mtime) = true := by
        exact Except.ok.inj h
      exact of_decide_eq_true hb
    · intro h
      simp [decide_eq_true_eq, h]
  · intro output_mtime hout hdeps
    subst hdeps
    simp [outdated, hout, dep_mtime_loop]

/-- Witness for C2: with output mtime `5` and a single dependency of
mtime `7`, `outdated` returns `true`. -/
theorem c2_outdated_rebuild_decision_witness :
    outdated fs_c2 "out" ["d1"] = Except.ok true :=
  ((c2_outdated_rebuild_decision fs_c2 "out" ["d1"]).2.1
    (by decide) 5 (by decide)).mpr (by decide)

/-- C8 — `outdated` with an existing output and a missing dependency raises
(`FileNotFoundError`, the specification's `MissingDependency`) instead of
returning a boolean. -/
theorem c8_outdated_missing_dependency (fs : FS) (output : String) (deps : List String)
    (hout : (fs.files output).isSome)
    (hmiss : ∃ d ∈ deps, fs.files d = none) :
    outdated fs output deps = Except.error SimError.missing_dependency := by
  rcases Option.isSome_iff_exists.mp hout with ⟨m, hm⟩
  simp only [outdated, hm, dep_mtime_loop_missing fs deps hmiss 0]

/-- Witness for C8: an existing output and a dependency that does not
exist make `outdated` raise. -/
theorem c8_outdated_missing_dependency_witness :
    outdated fs_c2 "out" ["ghost"] = Except.error SimError.missing_dependency :=
  c8_outdated_missing_dependency fs_c2 "out" ["ghost"] (by decide)
    ⟨"ghost", by decide, by decide⟩

lemma bind_ne_nil (f : Char → List Char) (hf : ∀ c, f c ≠ [])
    (cs : List Char) (h : cs ≠ []) : cs.bind f ≠ [] := by
  cases cs with
  | nil => exact absurd rfl h
  | cons c rest =>
    simp only [List.cons_bind, ne_eq, List.append_eq_nil, not_and]
    intro hfc
    exact absurd hfc (hf c)

lemma escape_magic_ne_nil (cs : List Char) (h : cs ≠ []) : escape_magic cs ≠ [] := by
  apply bind_ne_nil _ _ cs h
  intro c
  by_cases hc : c = '\\' ∨ c = '\x7b' ∨ c = '\x7d' <;> simp [hc]

lemma replace_newline_ne_nil (cs : List Char) (h : cs ≠ []) : replace_newline cs ≠ [] := by
  apply bind_ne_nil _ _ cs h
  intro c
  by_cases hc : c = '\n' <;> simp [hc]

lemma escape_space_ne_nil (cs : List Char) (h : cs ≠ []) : escape_space cs ≠ [] := by
  apply bind_ne_nil _ _ cs h
  intro c
  by_cases hc : is_ascii_space c = true <;> simp [hc]

/-- C10 — `as_tcl_value` is undefined on the empty string (the unconditional
`value[0]` raises `IndexError` there) and defined on every non-empty
string. -/
theorem c10_as_tcl_value_partiality :
    as_tcl_value "" = none ∧
    ∀ s : String, s ≠ "" → (as_tcl_value s).isSome = true := by
  constructor
  · rfl
  · intro s hs
    have hdata : s.data ≠ [] := by
      intro hd
      apply hs
      cases s with
      | mk data => simp_all
    have h1 := escape_magic_ne_nil s.data hdata
    have h2 := replace_newline_ne_nil _ h1
    have h3 := escape_space_ne_nil _ h2
    unfold as_tcl_value
    cases hv : escape_space (replace_newline (escape_magic s.data)) with
    | nil => exact absurd hv h3
    | cons c rest => simp

/-- Witness for C10: the nested quantification is discharged on the
one-character string `"a"`. -/
theorem c10_as_tcl_value_partiality_witness :
    (as_tcl_value "a").isSome = true :=
  c10_as_tcl_value_partiality.2 "a" (by decide)

/-- Counterexample for C3: with a non-empty Verilog source list, an
up-to-date artifact, `force_compile = false` and `compile_only = true`,
`Icarus.build_command` returns zero commands — not the single compile
command the claim asserts for every compile-only request. -/
theorem c3_icarus_counterexample :
    cfg_c3.compile_only = true ∧ cfg_c3.verilog_sources ≠ [] ∧
    Icarus.build_command fs_c3 cfg_c3 =
      Except.ok ([], ["Skipping compilation:sb/top.vvp"]) := by
  refine ⟨rfl, by decide, ?_⟩
  rfl

/-- C3 (amended) — for an Icarus request with a non-empty Verilog source
list, writing `od` for the rebuild decision on the `.vvp` artifact: when
`od` or `force_compile` holds, `build_command` yields the compile command
followed by the run command (two commands) unless `compile_only`, in which
case the compile command alone; when the artifact is up to date and
compilation is not forced, it yields the run command alone with a skip
notice unless `compile_only`, in which case no commands at all (still with
the skip notice). -/
theorem c3_icarus_build_command (fs : FS) (s : SimConfig) (od : Bool)
    (hv : s.verilog_sources ≠ [])
    (hod : outdated fs (Icarus.sim_file s) s.verilog_sources = Except.ok od) :
    ((od = true ∨ s.force_compile = true) → s.compile_only = false →
      Icarus.build_command fs s =
        Except.ok ([Icarus.compile_command s, Icarus.run_command s], [])) ∧
    ((od = true ∨ s.force_compile = true) → s.compile_only = true →
      Icarus.build_command fs s = Except.ok ([Icarus.compile_command s], [])) ∧
    (od = false → s.force_compile = false → s.compile_only = false →
      Icarus.build_command fs s =
        Except.ok ([Icarus.run_command s],
          ["Skipping compilation:" ++ Icarus.sim_file s])) ∧
    (od = false → s.force_compile = false → s.compile_only = true →
      Icarus.build_command fs s =
        Except.ok ([], ["Skipping compilation:" ++ Icarus.sim_file s])) := by
  refine ⟨?_, ?_, ?_, ?_⟩
  · rintro (h | h) hco <;>
      simp [Icarus.build_command, hod, h, hco]
  · rintro (h | h) hco <;>
      simp [Icarus.build_command, hod, h, hco]
  · intro h1 h2 h3
    simp [Icarus.build_command, hod, h1, h2, h3]
  · intro h1 h2 h3
    simp [Icarus.build_command, hod, h1, h2, h3]

/-- Witness for C3 (amended): with no prior artifact the command sequence
is exactly compile followed by run. -/
theorem c3_icarus_build_command_witness :
    Icarus.build_command fs_c3w cfg_c3w =
      Except.ok ([Icarus.compile_command cfg_c3w, Icarus.run_command cfg_c3w], []) :=
  (c3_icarus_build_command fs_c3w cfg_c3w true (by decide) (by rfl)).1
    (Or.inl rfl) rfl

/-- C4 — `execute` spawns every command of the sequence in the given order
(so a non-zero exit code never prevents the later commands), and a
non-zero exit code is recorded in the log as an error entry; the function
returns no verdict — pass/fail is left to result collection. -/
theorem c4_execute_sequential_no_raise (w : CmdWorld) (cmds : List (List String)) :
    (execute w cmds).1 = cmds ∧
    (∀ cmd ∈ cmds, w.exit_code cmd ≠ 0 →
      LogEntry.error ("Command terminated with error " ++ toString (w.exit_code cmd))
        ∈ (execute w cmds).2) := by
  induction cmds with
  | nil => exact ⟨rfl, fun cmd h => absurd h (List.not_mem_nil cmd)⟩
  | cons cmd rest ih =>
    refine ⟨by simp [execute, ih.1], ?_⟩
    intro c hc hcode
    rcases List.mem_cons.mp hc with rfl | hcrest
    · simp only [execute, List.mem_append]
      left
      simp only [execute_one, List.mem_append]
      right
      simp [hcode]
    · simp only [execute, List.mem_append]
      right
      exact ih.2 c hcrest hcode

/-- Witness for C4: in the two-command sequence the failing first command
is logged as an error and the second command is still spawned. -/
theorem c4_execute_sequential_no_raise_witness :
    (execute w_c4 [["false"], ["true"]]).1 = [["false"], ["true"]] ∧
    LogEntry.error "Command terminated with error 1" ∈ (execute w_c4 [["false"], ["true"]]).2 :=
  ⟨(c4_execute_sequential_no_raise w_c4 [["false"], ["true"]]).1,
   (c4_execute_sequential_no_raise w_c4 [["false"], ["true"]]).2 ["false"]
     (by decide) (by decide)⟩

/-- C7 — behaviour of the cancellation handler on the failing input and on
an active child.  With an active child (pid 42, SIGTERM) the handler
flushes, kills and waits for the child, restores both saved handlers and
fails with the message carrying pid and signal, as the claim says; but in
the only reachable no-child state — a signal arriving before the first
command has been spawned, so `self.process` was never assigned — the
handler raises `AttributeError` instead of running the
restore-handlers-and-fail path. -/
theorem c7_exit_gracefully_evaluation :
    exit_gracefully { process := ProcessAttr.unset, old_sigint_h := 7, old_sigterm_h := 8 } SIGINT
      = Except.error PyError.attribute_error ∧
    exit_gracefully
        { process := ProcessAttr.assigned (some 42), old_sigint_h := 7, old_sigterm_h := 8 }
        SIGTERM
      = Except.ok
          [Effect.flush_child 42, Effect.kill_child 42, Effect.wait_child 42,
           Effect.set_signal SIGINT 7, Effect.set_signal SIGTERM 8,
           Effect.assertion_failure "Exiting pid: 42 with signum: 15"] := by
  exact ⟨rfl, rfl⟩

/-- C5 — a non-empty VHDL source list makes the construction of the
VHDL-incapable backends (Icarus, Verilator) fail at once with the
unsupported-source-kind error, and the resulting session produces zero
commands. -/
theorem c5_vhdl_rejected_at_construction (s : SimConfig) (hv : s.vhdl_sources ≠ []) :
    Icarus.init s = Except.error SimError.unsupported_source_kind ∧
    Verilator.init s = Except.error SimError.unsupported_source_kind ∧
    (∀ fs : FS, commands_of (Icarus.session fs s) = []) ∧
    (∀ (verilator_exec : Option String) (cocotb_dir : String),
      commands_of (Verilator.session verilator_exec cocotb_dir s) = []) := by
  have hi : Icarus.init s = Except.error SimError.unsupported_source_kind := by
    simp [Icarus.init, hv]
  have hverl : Verilator.init s = Except.error SimError.unsupported_source_kind := by
    simp [Verilator.init, hv]
  refine ⟨hi, hverl, ?_, ?_⟩
  · intro fs
    simp [Icarus.session, hi, commands_of]
  · intro verilator_exec cocotb_dir
    simp [Verilator.session, hverl, commands_of]

/-- Witness for C5 at a VHDL-only request. -/
theorem c5_vhdl_rejected_at_construction_witness :
    Icarus.init cfg_c5 = Except.error SimError.unsupported_source_kind ∧
    Verilator.init cfg_c5 = Except.error SimError.unsupported_source_kind :=
  ⟨(c5_vhdl_rejected_at_construction cfg_c5 (by decide)).1,
   (c5_vhdl_rejected_at_construction cfg_c5 (by decide)).2.1⟩

/-- C9 (evaluation) — `Ghdl.get_define_commands` returns the absent value
`None` instead of a flag list (its `return` statement is missing), while
the sibling formatters, here `Icarus.get_include_commands`, do return the
order-preserving flag list the claim describes. -/
theorem c9_ghdl_get_define_commands_returns_none :
    Ghdl.get_define_commands ["COCOTB_SIM"] = none ∧
    Icarus.get_include_commands ["i1", "i2"] = ["-I", "i1", "-I", "i2"] :=
  ⟨rfl, rfl⟩

lemma riviera_sim_script_no_compile (s : SimConfig)
    (pr : List RScript × List (String × String))
    (h : Riviera.sim_script s = Except.ok pr) :
    ∀ c ∈ pr.1, RScript.is_compile_line c = false := by
  intro c hc
  simp only [Riviera.sim_script] at h
  split at h
  all_goals repeat' split at h
  all_goals try exact Except.noConfusion h
  all_goals
    (injection h with h2; subst h2;
     simp only [List.mem_singleton] at hc; subst hc; rfl)

lemma riviera_compile_script_skip (fs : FS) (s : SimConfig)
    (hforce : s.force_compile = false)
    (hrv : outdated fs (Riviera.out_file s) (s.verilog_sources ++ s.vhdl_sources)
      = Except.ok false) :
    Riviera.compile_script fs s =
      Except.ok ([], ["Skipping compilation:" ++ Riviera.out_file s]) := by
  unfold Riviera.compile_script
  simp [hrv, hforce]

lemma questa_compile_phase_skip (fs : FS) (s : SimConfig)
    (hforce : s.force_compile = false) :
    Questa.compile_phase fs s false =
      Except.ok ([], ["Skipping compilation:" ++ Questa.out_file s], []) := by
  unfold Questa.compile_phase
  simp [hforce]

/-- C6 (amended) — when the rebuild decision reports the compiled artifact
is not stale and `force_compile` is false, the Icarus, Questa, Ius,
Xcelium and Riviera backends omit all compilation commands (for Riviera:
all compilation lines of its `do` script) and log the skip notice instead;
the Ghdl and Vcs backends, excluded here, never consult the rebuild
decision and always emit their compilation commands. -/
theorem c6_skip_compilation_when_not_stale (fs : FS) (s : SimConfig)
    (hforce : s.force_compile = false)
    (hic : outdated fs (Icarus.sim_file s) s.verilog_sources = Except.ok false)
    (hq : outdated fs (Questa.out_file s) (s.verilog_sources ++ s.vhdl_sources)
      = Except.ok false)
    (hius : outdated fs (Ius.out_file s) (s.verilog_sources ++ s.vhdl_sources)
      = Except.ok false)
    (hxc : outdated fs (Xcelium.out_file s) (s.verilog_sources ++ s.vhdl_sources)
      = Except.ok false)
    (hrv : outdated fs (Riviera.out_file s) (s.verilog_sources ++ s.vhdl_sources)
      = Except.ok false) :
    (Icarus.build_command fs s =
      Except.ok ((if s.compile_only then [] else [Icarus.run_command s]),
        ["Skipping compilation:" ++ Icarus.sim_file s])) ∧
    (∀ out : BuildOut, Questa.build_command fs s = Except.ok out →
      out.cmds = (if s.compile_only then [] else [Questa.run_command s]) ∧
      out.logs = ["Skipping compilation:" ++ Questa.out_file s]) ∧
    (Ius.build_command fs s =
      Except.ok ((if s.compile_only then [] else [Ius.run_command s]),
        ["Skipping compilation:" ++ Ius.out_file s])) ∧
    (Xcelium.build_command fs s =
      Except.ok ((if s.compile_only then [] else [Xcelium.run_command s]),
        ["Skipping compilation:" ++ Xcelium.out_file s])) ∧
    (∀ (tmp_do_file : String) (out : RivieraOut),
      Riviera.build_command tmp_do_file fs s = Except.ok out →
      (∀ c ∈ out.script, RScript.is_compile_line c = false) ∧
      out.logs = ["Skipping compilation:" ++ Riviera.out_file s]) := by
  refine ⟨?_, ?_, ?_, ?_, ?_⟩
  · cases hco : s.compile_only <;>
      simp [Icarus.build_command, hic, hforce, hco]
  · intro out h
    unfold Questa.build_command at h
    simp only [hq, questa_compile_phase_skip fs s hforce] at h
    by_cases hco : s.compile_only
    · simp only [hco, if_true] at h
      cases h
      simp [hco]
    · simp only [hco, if_false] at h
      cases hsp : Questa.sim_phase s with
      | error e => rw [hsp] at h; exact absurd h (by simp)
      | ok pr =>
        obtain ⟨do_script, env1⟩ := pr
        rw [hsp] at h
        cases h
        simp [hco]
  · cases hco : s.compile_only <;>
      simp [Ius.build_command, hius, hforce, hco]
  · cases hco : s.compile_only <;>
      simp [Xcelium.build_command, hxc, hforce, hco]
  · intro tmp_do_file out h
    unfold Riviera.build_command at h
    rw [riviera_compile_script_skip fs s hforce hrv] at h
    by_cases hco : s.compile_only
    · simp only [hco, if_true] at h
      cases h
      constructor
      · intro c hc
        have hce : c = RScript.onerror_header := by simpa using hc
        subst hce
        rfl
      · rfl
    · simp only [hco, if_false] at h
      cases hss : Riviera.sim_script s with
      | error e => rw [hss] at h; exact absurd h (by simp)
      | ok pr =>
        obtain ⟨lines, env⟩ := pr
        rw [hss] at h
        cases h
        refine ⟨?_, rfl⟩
        intro c hc
        have hce : c = RScript.onerror_header ∨ c ∈ lines ∨ c = RScript.run_all_exit := by
          simpa using hc
        rcases hce with rfl | hc2 | rfl
        · rfl
        · exact riviera_sim_script_no_compile s (lines, env) hss c hc2
        · rfl

/-- Counterexample for C6: for the Vcs backend the rebuild decision reports
the compiled `simv` is not stale and `force_compile` is false, yet
`Vcs.build_command` still emits the compilation command as its first entry
(and, as its result type shows, it logs nothing — no skip notice). -/
theorem c6_vcs_counterexample :
    outdated fs_c6x (Vcs.simv_file cfg_c6x) cfg_c6x.verilog_sources = Except.ok false ∧
    cfg_c6x.force_compile = false ∧
    (Vcs.build_command cfg_c6x).1 =
      [CmdEntry.vec (Vcs.compile_command cfg_c6x),
       CmdEntry.vec [Vcs.simv_file cfg_c6x, "+define+COCOTB_SIM=1"]] :=
  ⟨rfl, rfl, rfl⟩

/-- Witness for C6 (amended), instantiated on the Icarus conjunct: with an
up-to-date artifact the command sequence is the run command alone and the
skip notice is logged. -/
theorem c6_skip_compilation_when_not_stale_witness :
    Icarus.build_command fs_c6w cfg_c6w =
      Except.ok ([Icarus.run_command cfg_c6w], ["Skipping compilation:sb/top.vvp"]) := by
  have h := (c6_skip_compilation_when_not_stale fs_c6w cfg_c6w rfl
    (by rfl) (by rfl) (by rfl) (by rfl) (by rfl)).1
  simpa using h

lemma first_failure_in_cases_clean (cases : List TestCase)
    (h : ∀ tc ∈ cases, tc.failures = []) :
    first_failure_in_cases cases = none := by
  induction cases with
  | nil => rfl
  | cons tc rest ih =>
    have htc : tc.failures = [] := h tc (List.mem_cons_self tc rest)
    have hrest : ∀ x ∈ rest, x.failures = [] := fun x hx => h x (List.mem_cons_of_mem tc hx)
    simp only [first_failure_in_cases, htc]
    exact ih hrest

lemma first_failure_clean (suites : List TestSuite)
    (h : ∀ ts ∈ suites, ∀ tc ∈ ts.testcases, tc.failures = []) :
    first_failure suites = none := by
  induction suites with
  | nil => rfl
  | cons ts rest ih =>
    have hts := first_failure_in_cases_clean ts.testcases (h ts (List.mem_cons_self ts rest))
    have hrest : ∀ x ∈ rest, ∀ tc ∈ x.testcases, tc.failures = [] :=
      fun x hx => h x (List.mem_cons_of_mem ts hx)
    simp only [first_failure, hts]
    exact ih hrest

lemma first_failure_in_cases_at (cases : List TestCase) (j : Nat) (hj : j < cases.length)
    (hclean : ∀ j' (h : j' < j), (cases.get ⟨j', Nat.lt_trans h hj⟩).failures = [])
    (f : TestFailureRec) (rest : List TestFailureRec)
    (hfail : (cases.get ⟨j, hj⟩).failures = f :: rest) :
    first_failure_in_cases cases =
      some (f.message, (cases.get ⟨j, hj⟩).classname, (cases.get ⟨j, hj⟩).name, f.stdout) := by
  induction cases generalizing j with
  | nil => exact absurd hj (Nat.not_lt_zero j)
  | cons tc tl ih =>
    cases j with
    | zero =>
      simp only [List.get] at hfail ⊢
      simp only [first_failure_in_cases, hfail]
    | succ j =>
      have htc : tc.failures = [] := hclean 0 (Nat.succ_pos j)
      simp only [List.get] at hfail ⊢
      simp only [first_failure_in_cases, htc]
      exact ih j (Nat.lt_of_succ_lt_succ hj)
        (fun j' h => hclean (j' + 1) (Nat.succ_lt_succ h)) hfail

lemma first_failure_at (suites : List TestSuite) (i : Nat) (hi : i < suites.length)
    (hprev : ∀ i' (h : i' < i),
      ∀ tc ∈ (suites.get ⟨i', Nat.lt_trans h hi⟩).testcases, tc.failures = [])
    (d : String × String × String × String)
    (hcur : first_failure_in_cases (suites.get ⟨i, hi⟩).testcases = some d) :
    first_failure suites = some d := by
  induction suites generalizing i with
  | nil => exact absurd hi (Nat.not_lt_zero i)
  | cons ts tl ih =>
    cases i with
    | zero =>
      simp only [List.get] at hcur
      simp only [first_failure, hcur]
    | succ i =>
      have hts : first_failure_in_cases ts.testcases = none :=
        first_failure_in_cases_clean ts.testcases (hprev 0 (Nat.succ_pos i))
      simp only [List.get] at hcur
      simp only [first_failure, hts]
      exact ih i (Nat.lt_of_succ_lt_succ hi)
        (fun i' h => hprev (i' + 1) (Nat.succ_lt_succ h)) hcur

/-- C1 — result collection for a non-compile-only run: a missing report
fails with the report-missing error unconditionally (before any test case
could be inspected); a report all of whose test cases have no failure
records succeeds with the report path; and a report whose first failure in
the top-to-bottom scan sits at suite `i`, case `j` (all earlier suites
clean, all earlier cases of suite `i` clean) raises the test-failure error
carrying exactly that failure's message, its case's class name and name,
and its captured standard output. -/
theorem c1_collect_results_first_failure (p : String) :
    (collect_results false none p = Except.error RunError.report_missing) ∧
    (∀ r : Report, (∀ ts ∈ r.testsuites, ∀ tc ∈ ts.testcases, tc.failures = []) →
      collect_results false (some r) p = Except.ok p) ∧
    (∀ (r : Report) (i j : Nat) (hi : i < r.testsuites.length)
        (hj : j < (r.testsuites.get ⟨i, hi⟩).testcases.length)
        (f : TestFailureRec) (rest : List TestFailureRec),
      (∀ i' (h : i' < i),
        ∀ tc ∈ (r.testsuites.get ⟨i', Nat.lt_trans h hi⟩).testcases, tc.failures = []) →
      (∀ j' (h : j' < j),
        ((r.testsuites.get ⟨i, hi⟩).testcases.get ⟨j', Nat.lt_trans h hj⟩).failures = []) →
      ((r.testsuites.get ⟨i, hi⟩).testcases.get ⟨j, hj⟩).failures = f :: rest →
      collect_results false (some r) p =
        Except.error (RunError.test_failure f.message
          ((r.testsuites.get ⟨i, hi⟩).testcases.get ⟨j, hj⟩).classname
          ((r.testsuites.get ⟨i, hi⟩).testcases.get ⟨j, hj⟩).name
          f.stdout)) := by
  refine ⟨rfl, ?_, ?_⟩
  · intro r hclean
    simp only [collect_results, first_failure_clean r.testsuites hclean]
    rfl
  · intro r i j hi hj f rest hprev hcases hfail
    have hc := first_failure_in_cases_at (r.testsuites.get ⟨i, hi⟩).testcases j hj
      hcases f rest hfail
    have hs := first_failure_at r.testsuites i hi hprev _ hc
    simp only [collect_results, hs]
    rfl

/-- Witness for C1: with the failure in the third case of the second
suite, the scan reports exactly that suite, case, message and captured
output. -/
theorem c1_collect_results_first_failure_witness :
    collect_results false (some report_c1) "results.xml" =
      Except.error (RunError.test_failure "boom" "m2" "t3" "log") := by
  exact (c1_collect_results_first_failure "results.xml").2.2 report_c1 1 2
    (by decide) (by decide) { message := "boom", stdout := "log" } []
    (by decide) (by decide) rfl
